import Mathlib

/-!
Shallow embedding of src/core/ngx_regex.c (the nginx PCRE2 regex adapter).

The external PCRE2 engine (pcre2_compile, pcre2_pattern_info, pcre2_match,
pcre2_jit_compile, pcre2_config, pcre2_code_free, pcre2_get_error_message) is
an opaque collaborator: each adapter function is parametrised by the engine
replies it consumes in that call.  C strings are modelled as lists of
characters; ngx_snprintf formatting becomes list concatenation truncated to
the capacity of the destination buffer.  The host registry container
(ngx_list_t, which lives in ngx_list.c, outside the provided sources) is
modelled from the spec as a plain append-only ordered sequence; the
part-by-part traversal loops in ngx_regex.c visit exactly the elements of
that sequence in order.
-/

namespace NgxRegex

/-- C strings (and formatted log/error messages) as character lists. -/
abbrev Str := List Char

/-- Shorthand turning a Lean string literal into the character-list model. -/
def str (s : String) : Str := s.toList

/-- Decimal rendering of an int, as produced by the %d and %i conversions of
ngx_snprintf. -/
def intStr (n : Int) : Str := (toString n).toList

/-- Return code NGX_OK. -/
def NGX_OK : Int := 0

/-- Return code NGX_ERROR. -/
def NGX_ERROR : Int := -1

/-- Return code NGX_DECLINED. -/
def NGX_DECLINED : Int := -5

/-- NGX_REGEX_NO_MATCHED, the engine sentinel PCRE2_ERROR_NOMATCH. -/
def NGX_REGEX_NO_MATCHED : Int := -1

/-- ngx_regex_t: wrapper holding the engine-compiled handle (pcre2_code *),
modelled as an opaque numeric handle id. -/
structure ngx_regex_t where
  code : Nat
deriving DecidableEq, Repr

/-- ngx_regex_elt_t: one registry entry, the compiled pattern plus the
original pattern text kept for diagnostics. -/
structure ngx_regex_elt where
  regex : ngx_regex_t
  name : Str
deriving DecidableEq, Repr

/-- Name of the execution wrapper used in log messages; ngx_regex.h defines
ngx_regex_exec_n as the literal name of the engine match entry point. -/
def ngx_regex_exec_n : Str := str "pcre2_match()"

/-- The alert-severity log line produced by ngx_regex_exec_array when the
engine returns a negative code other than the no-match sentinel: format
string is  "%s failed: %i on \"%V\" using \"%s\""  applied to the wrapper
name, the code, the input and the original pattern text. -/
def execFailMsg (n : Int) (s : Str) (name : Str) : Str :=
  ngx_regex_exec_n ++ str " failed: " ++ intStr n ++ str " on \"" ++ s
    ++ str "\" using \"" ++ name ++ str "\""

/-- Result of running the loop of ngx_regex_exec_array: the returned status,
how many patterns had ngx_regex_exec invoked on them, and the alert log
lines emitted. -/
structure ExecArrayResult where
  status : Int
  invoked : Nat
  logs : List Str
deriving DecidableEq, Repr

/-- The loop body of ngx_regex_exec_array over the remaining elements:
each element has ngx_regex_exec run on it; NGX_REGEX_NO_MATCHED continues,
any other negative code logs at alert severity and returns NGX_ERROR, a
non-negative code returns NGX_OK; an exhausted sequence yields
NGX_DECLINED.  `exec` stands for the opaque engine execution call. -/
def execArrayLoop (exec : ngx_regex_t → Str → Int) (s : Str) :
    List ngx_regex_elt → ExecArrayResult
  | [] => ⟨NGX_DECLINED, 0, []⟩
  | e :: rest =>
      let n := exec e.regex s
      if n = NGX_REGEX_NO_MATCHED then
        let r := execArrayLoop exec s rest
        ⟨r.status, r.invoked + 1, r.logs⟩
      else if n < 0 then
        ⟨NGX_ERROR, 1, [execFailMsg n s e.name]⟩
      else
        ⟨NGX_OK, 1, []⟩

/-- ngx_regex_exec_array: status returned to the caller. -/
def ngx_regex_exec_array (exec : ngx_regex_t → Str → Int)
    (a : List ngx_regex_elt) (s : Str) : Int :=
  (execArrayLoop exec s a).status

/-- Reply of one pcre2_pattern_info query: the returned status `n` and the
value stored through the output pointer (meaningful only when `n` is not
negative). -/
structure InfoReply where
  n : Int
  val : Nat
deriving DecidableEq, Repr

/-- The four PCRE2_INFO_* queries issued by ngx_regex_compile. -/
inductive InfoKind
  | captureCount
  | nameCount
  | nameEntrySize
  | nameTable
deriving DecidableEq, Repr

/-- The PCRE2_INFO_* constant name as it appears in the failure format
strings of ngx_regex_compile. -/
def infoName : InfoKind → Str
  | .captureCount => str "PCRE2_INFO_CAPTURECOUNT"
  | .nameCount => str "PCRE2_INFO_NAMECOUNT"
  | .nameEntrySize => str "PCRE2_INFO_NAMEENTRYSIZE"
  | .nameTable => str "PCRE2_INFO_NAMETABLE"

/-- Message written at the failed: label of ngx_regex_compile; the format
string is  "pcre2_pattern_info(\"%V\", X) failed: %d"  applied to the
pattern and the numeric code. -/
def infoFailedMsg (k : InfoKind) (pattern : Str) (n : Int) : Str :=
  str "pcre2_pattern_info(\"" ++ pattern ++ str "\", " ++ infoName k
    ++ str ") failed: " ++ intStr n

/-- Message written at the nomem: label of ngx_regex_compile. -/
def nomemMsg (pattern : Str) : Str :=
  str "regex \"" ++ pattern ++ str "\" compilation failed: no memory"

/-- Message written when pcre2_compile rejects the pattern: when the failure
offset equals the pattern length the suffix clause is omitted, otherwise
the %s conversion on pattern.data + erroff appends the unparsed suffix. -/
def compileFailMsg (errstr pattern : Str) (erroff : Nat) : Str :=
  if erroff = pattern.length then
    str "pcre2_compile() failed: " ++ errstr ++ str " in \"" ++ pattern
      ++ str "\""
  else
    str "pcre2_compile() failed: " ++ errstr ++ str " in \"" ++ pattern
      ++ str "\" at \"" ++ pattern.drop erroff ++ str "\""

/-- Engine replies consumed by one ngx_regex_compile call: the result of
pcre2_compile (error code and offset, or a compiled handle), the text that
pcre2_get_error_message writes for that error code, and the replies of the
four possible pcre2_pattern_info queries on the handle. -/
structure EngineCompile where
  result : Except (Int × Nat) Nat
  errstr : Str
  captureCount : InfoReply
  nameCount : InfoReply
  nameEntrySize : InfoReply
  nameTable : InfoReply
deriving Repr

/-- ngx_regex_compile_t input fields: the pattern text, the option flags and
the capacity of the caller-supplied error buffer (rc->err.len on entry). -/
structure ngx_regex_compile_t where
  pattern : Str
  options : Int
  errCap : Nat
deriving DecidableEq, Repr

/-- Observable outcome of one ngx_regex_compile call: the returned status,
the allocated wrapper (rc->regex), the output fields written into the
request, the error buffer content (none when the buffer was not written)
and its resulting length, the pcre2_pattern_info queries issued in order,
whether a registry entry was appended, and the registry afterwards. -/
structure CompileResult where
  status : Int
  regex : Option ngx_regex_t
  captures : Option Nat
  named_captures : Option Nat
  name_size : Option Nat
  names : Option Nat
  errMsg : Option Str
  errLen : Nat
  queries : List InfoKind
  registryAppended : Bool
  studies : Option (List ngx_regex_elt)
deriving DecidableEq, Repr

/-- Result assembled at the failed: label: NGX_ERROR with the query-failure
message truncated to the buffer capacity; output fields already written by
earlier successful queries are kept. -/
def infoFailed (rc : ngx_regex_compile_t) (re : Nat) (k : InfoKind) (n : Int)
    (captures named_captures name_size : Option Nat) (queries : List InfoKind)
    (registryAppended : Bool) (studies : Option (List ngx_regex_elt)) :
    CompileResult :=
  let msg := infoFailedMsg k rc.pattern n
  { status := NGX_ERROR, regex := some ⟨re⟩, captures := captures,
    named_captures := named_captures, name_size := name_size, names := none,
    errMsg := some (msg.take rc.errCap), errLen := min msg.length rc.errCap,
    queries := queries, registryAppended := registryAppended,
    studies := studies }

/-- Result of a successful return (NGX_OK): the error buffer is untouched
and rc->err.len keeps its entry value. -/
def compileOk (rc : ngx_regex_compile_t) (re : Nat)
    (captures named_captures name_size names : Option Nat)
    (queries : List InfoKind) (registryAppended : Bool)
    (studies : Option (List ngx_regex_elt)) : CompileResult :=
  { status := NGX_OK, regex := some ⟨re⟩, captures := captures,
    named_captures := named_captures, name_size := name_size, names := names,
    errMsg := none, errLen := rc.errCap, queries := queries,
    registryAppended := registryAppended, studies := studies }

/-- Result assembled at the nomem: label: NGX_ERROR with the no-memory
message truncated to the buffer capacity. -/
def nomemResult (rc : ngx_regex_compile_t) (regex : Option ngx_regex_t)
    (studies : Option (List ngx_regex_elt)) : CompileResult :=
  let msg := nomemMsg rc.pattern
  { status := NGX_ERROR, regex := regex, captures := none,
    named_captures := none, name_size := none, names := none,
    errMsg := some (msg.take rc.errCap), errLen := min msg.length rc.errCap,
    queries := [], registryAppended := false, studies := studies }

/-- The metadata-extraction tail of ngx_regex_compile, reached after the
pattern compiled and the wrapper and registry bookkeeping succeeded:
CAPTURECOUNT first, returning success at a zero capture count; then
NAMECOUNT, returning success at zero named captures; then NAMEENTRYSIZE
and NAMETABLE; any negative query status jumps to the failed: label. -/
def compileMetadata (eng : EngineCompile) (rc : ngx_regex_compile_t)
    (re : Nat) (registryAppended : Bool)
    (studies : Option (List ngx_regex_elt)) : CompileResult :=
  let q1 := eng.captureCount
  if q1.n < 0 then
    infoFailed rc re .captureCount q1.n none none none [.captureCount]
      registryAppended studies
  else if q1.val = 0 then
    compileOk rc re (some q1.val) none none none [.captureCount]
      registryAppended studies
  else
    let q2 := eng.nameCount
    if q2.n < 0 then
      infoFailed rc re .nameCount q2.n (some q1.val) none none
        [.captureCount, .nameCount] registryAppended studies
    else if q2.val = 0 then
      compileOk rc re (some q1.val) (some q2.val) none none
        [.captureCount, .nameCount] registryAppended studies
    else
      let q3 := eng.nameEntrySize
      if q3.n < 0 then
        infoFailed rc re .nameEntrySize q3.n (some q1.val) (some q2.val) none
          [.captureCount, .nameCount, .nameEntrySize] registryAppended studies
      else
        let q4 := eng.nameTable
        if q4.n < 0 then
          infoFailed rc re .nameTable q4.n (some q1.val) (some q2.val)
            (some q3.val)
            [.captureCount, .nameCount, .nameEntrySize, .nameTable]
            registryAppended studies
        else
          compileOk rc re (some q1.val) (some q2.val) (some q3.val)
            (some q4.val)
            [.captureCount, .nameCount, .nameEntrySize, .nameTable]
            registryAppended studies

/-- ngx_regex_compile: pcre2_compile first (on rejection, format the error
and return NGX_ERROR); then allocate the ngx_regex_t wrapper (`allocOk`
models ngx_pcalloc succeeding); then, when a registry is active, append the
entry holding the wrapper and the pattern text (`pushOk` models
ngx_list_push succeeding); then extract capture metadata. -/
def ngx_regex_compile (eng : EngineCompile) (rc : ngx_regex_compile_t)
    (studies : Option (List ngx_regex_elt)) (allocOk pushOk : Bool) :
    CompileResult :=
  match eng.result with
  | .error (_errcode, erroff) =>
      let msg := compileFailMsg eng.errstr rc.pattern erroff
      { status := NGX_ERROR, regex := none, captures := none,
        named_captures := none, name_size := none, names := none,
        errMsg := some (msg.take rc.errCap),
        errLen := min msg.length rc.errCap, queries := [],
        registryAppended := false, studies := studies }
  | .ok re =>
      if allocOk = false then
        nomemResult rc none studies
      else
        match studies with
        | some l =>
            if pushOk = false then
              nomemResult rc (some ⟨re⟩) (some l)
            else
              compileMetadata eng rc re true
                (some (l ++ [⟨⟨re⟩, rc.pattern⟩]))
        | none =>
            compileMetadata eng rc re false none

/-- Info-severity log line emitted when pcre2_jit_compile rejects a
pattern: "JIT compiler does not support pattern: \"%s\"". -/
def jitFailMsg (name : Str) : Str :=
  str "JIT compiler does not support pattern: \"" ++ name ++ str "\""

/-- The registry loop of ngx_regex_module_init: every entry is visited in
traversal order; when built with JIT support and the flag is on,
pcre2_jit_compile is attempted on the handle and a nonzero reply only logs
at info severity.  Returns the handles passed to pcre2_jit_compile, in
order, and the log lines emitted. -/
def jitPass (haveJit : Bool) (jit : Int) (jitCompile : Nat → Int) :
    List ngx_regex_elt → List Nat × List Str
  | [] => ([], [])
  | e :: rest =>
      if haveJit ∧ jit ≠ 0 then
        let n := jitCompile e.regex.code
        let (as, ls) := jitPass haveJit jit jitCompile rest
        if n ≠ 0 then (e.regex.code :: as, jitFailMsg e.name :: ls)
        else (e.regex.code :: as, ls)
      else
        jitPass haveJit jit jitCompile rest

/-- Observable outcome of ngx_regex_module_init: returned status, handles
on which JIT compilation was attempted in order, info log lines, the
registry captured by the registered cleanup, and the value of the global
registry pointer afterwards. -/
structure InitResult where
  status : Int
  jitAttempts : List Nat
  logs : List Str
  clnData : Option (List ngx_regex_elt)
  studiesAfter : Option (List ngx_regex_elt)
deriving DecidableEq, Repr

/-- ngx_regex_module_init: reads the pcre_jit flag (forced 0 when built
without JIT support), registers the teardown cleanup capturing the current
registry (`clnOk` models ngx_pool_cleanup_add succeeding), walks every
registry entry attempting pcre2_jit_compile when JIT is enabled, then sets
the global registry pointer to null and returns NGX_OK. -/
def ngx_regex_module_init (haveJit : Bool) (rcfJit : Int) (clnOk : Bool)
    (jitCompile : Nat → Int) (studies : List ngx_regex_elt) : InitResult :=
  let pcre_jit : Int := if haveJit then rcfJit else 0
  if clnOk = false then
    { status := NGX_ERROR, jitAttempts := [], logs := [], clnData := none,
      studiesAfter := some studies }
  else
    let pl := jitPass haveJit pcre_jit jitCompile studies
    { status := NGX_OK, jitAttempts := pl.1, logs := pl.2,
      clnData := some studies, studiesAfter := none }

/-- ngx_pcre_free_studies: walks every registry entry, part by part, and
calls pcre2_code_free on each compiled handle; the returned list is the
handles freed, in traversal order. -/
def ngx_pcre_free_studies (studies : List ngx_regex_elt) : List Nat :=
  studies.map (fun e => e.regex.code)

/-- Modelled from the spec: the pool cleanup mechanism (ngx_pool_cleanup_add
and pool destruction live in ngx_palloc.c, outside the provided sources)
runs a registered teardown callback exactly once when the owning generation
is destroyed; the state records the registry captured at registration time
and whether the callback already ran. -/
structure CleanupState where
  data : List ngx_regex_elt
  ran : Bool
deriving DecidableEq, Repr

/-- Modelled from the spec: one teardown trigger runs ngx_pcre_free_studies
on the captured registry when the callback has not run yet and marks it
consumed; a later trigger finds it consumed and frees nothing. -/
def runTeardown (c : CleanupState) : List Nat × CleanupState :=
  if c.ran then ([], c)
  else (ngx_pcre_free_studies c.data, { c with ran := true })

/-- Warning logged when the engine reports it was not built with JIT. -/
def jitUnavailableMsg : Str := str "PCRE library does not support JIT"

/-- Warning logged when nginx itself was built without JIT support. -/
def jitNotBuiltMsg : Str := str "nginx was built without PCRE JIT support"

/-- Observable outcome of the pcre_jit directive post handler: whether it
returned NGX_CONF_OK, the flag value after the call, and warnings logged. -/
structure JitPostResult where
  ok : Bool
  fp : Int
  warnings : List Str
deriving DecidableEq, Repr

/-- ngx_regex_pcre_jit: validation post handler of the pcre_jit directive.
`haveJit` models the NGX_HAVE_PCRE_JIT build condition; `configRes` is the
pcre2_config(PCRE2_CONFIG_JIT) reply, the returned status r and the value
stored in jit.  A flag of 0 returns at once; otherwise an unsupported JIT
forces the flag to 0 with a warning; the handler always returns
NGX_CONF_OK. -/
def ngx_regex_pcre_jit (haveJit : Bool) (configRes : Int × Int) (fp : Int) :
    JitPostResult :=
  if fp = 0 then
    { ok := true, fp := fp, warnings := [] }
  else if haveJit then
    if configRes.1 ≠ 0 ∨ configRes.2 ≠ 1 then
      { ok := true, fp := 0, warnings := [jitUnavailableMsg] }
    else
      { ok := true, fp := fp, warnings := [] }
  else
    { ok := true, fp := 0, warnings := [jitNotBuiltMsg] }

/-- A list is an infix of any list assembled as u ++ (x ++ v). -/
theorem infix_of_split {α : Type} {x l u v : List α}
    (h : l = u ++ (x ++ v)) : x <:+: l :=
  ⟨u, v, by rw [h, List.append_assoc]⟩

/-- Patterns reporting the no-match sentinel are skipped: running the loop
on pre ++ rest where every element of pre reports NGX_REGEX_NO_MATCHED
yields the outcome of rest, with the invocation count grown by pre. -/
theorem execArrayLoop_nomatch_prefix (exec : ngx_regex_t → Str → Int)
    (s : Str) (pre rest : List ngx_regex_elt)
    (h : ∀ x ∈ pre, exec x.regex s = NGX_REGEX_NO_MATCHED) :
    execArrayLoop exec s (pre ++ rest) =
      ⟨(execArrayLoop exec s rest).status,
        (execArrayLoop exec s rest).invoked + pre.length,
        (execArrayLoop exec s rest).logs⟩ := by
  induction pre with
  | nil => simp
  | cons x xs ih =>
      have hx : exec x.regex s = NGX_REGEX_NO_MATCHED := h x (by simp)
      have ihh := ih (fun y hy => h y (by simp [hy]))
      simp [execArrayLoop, hx, ihh]
      omega

/-- C2: when every pattern before some pattern e reports the no-match
sentinel and e reports a negative code other than the sentinel,
ngx_regex_exec_array returns NGX_ERROR having invoked exactly the patterns
up to and including e (all later patterns are skipped), and emits exactly
one alert log line which contains the numeric code, the input string and
the original pattern text of e. -/
theorem exec_array_error_short_circuit (exec : ngx_regex_t → Str → Int)
    (s : Str) (pre post : List ngx_regex_elt) (e : ngx_regex_elt)
    (hpre : ∀ x ∈ pre, exec x.regex s = NGX_REGEX_NO_MATCHED)
    (hlt : exec e.regex s < 0)
    (hne : exec e.regex s ≠ NGX_REGEX_NO_MATCHED) :
    ngx_regex_exec_array exec (pre ++ e :: post) s = NGX_ERROR ∧
    (execArrayLoop exec s (pre ++ e :: post)).invoked = pre.length + 1 ∧
    (execArrayLoop exec s (pre ++ e :: post)).logs
      = [execFailMsg (exec e.regex s) s e.name] ∧
    intStr (exec e.regex s) <:+: execFailMsg (exec e.regex s) s e.name ∧
    s <:+: execFailMsg (exec e.regex s) s e.name ∧
    e.name <:+: execFailMsg (exec e.regex s) s e.name := by
  have hh := execArrayLoop_nomatch_prefix exec s pre (e :: post) hpre
  have hloop : execArrayLoop exec s (e :: post)
      = ⟨NGX_ERROR, 1, [execFailMsg (exec e.regex s) s e.name]⟩ := by
    simp [execArrayLoop, hne, hlt]
  rw [hloop] at hh
  refine ⟨?_, ?_, ?_, ?_, ?_, ?_⟩
  · simp [ngx_regex_exec_array, hh]
  · simp [hh]
    omega
  · simp [hh]
  · exact infix_of_split (u := ngx_regex_exec_n ++ str " failed: ")
      (v := str " on \"" ++ s ++ str "\" using \"" ++ e.name ++ str "\"")
      (by simp [execFailMsg, List.append_assoc])
  · exact infix_of_split
      (u := ngx_regex_exec_n ++ str " failed: "
        ++ intStr (exec e.regex s) ++ str " on \"")
      (v := str "\" using \"" ++ e.name ++ str "\"")
      (by simp [execFailMsg, List.append_assoc])
  · exact infix_of_split
      (u := ngx_regex_exec_n ++ str " failed: "
        ++ intStr (exec e.regex s) ++ str " on \"" ++ s ++ str "\" using \"")
      (v := str "\"")
      (by simp [execFailMsg, List.append_assoc])

/-- Closed instance of exec_array_error_short_circuit: pattern 1 reports
no-match, pattern 2 reports -2, pattern 3 would match but is skipped. -/
theorem exec_array_error_short_circuit_witness :
    (∀ x ∈ [ngx_regex_elt.mk ⟨1⟩ (str "a")],
      (fun r (_ : Str) => if r.code = 1 then NGX_REGEX_NO_MATCHED
        else if r.code = 2 then (-2 : Int) else 1) x.regex (str "in")
        = NGX_REGEX_NO_MATCHED) ∧
    ngx_regex_exec_array
      (fun r (_ : Str) => if r.code = 1 then NGX_REGEX_NO_MATCHED
        else if r.code = 2 then (-2 : Int) else 1)
      [⟨⟨1⟩, str "a"⟩, ⟨⟨2⟩, str "b"⟩, ⟨⟨3⟩, str "c"⟩] (str "in")
      = NGX_ERROR :=
  ⟨by decide,
    (exec_array_error_short_circuit
      (fun r _ => if r.code = 1 then NGX_REGEX_NO_MATCHED
        else if r.code = 2 then (-2 : Int) else 1)
      (str "in") [⟨⟨1⟩, str "a"⟩] [⟨⟨3⟩, str "c"⟩] ⟨⟨2⟩, str "b"⟩
      (by decide) (by decide) (by decide)).1⟩

/-- C3: ngx_regex_exec_array skips every pattern reporting the no-match
sentinel and continues; at the first pattern reporting a match it returns
NGX_OK without invoking any later pattern; and when the sequence, possibly
empty, is exhausted with no match and no error it returns NGX_DECLINED,
which is distinct from both NGX_OK and NGX_ERROR. -/
theorem exec_array_skip_match_declined (exec : ngx_regex_t → Str → Int)
    (s : Str) :
    (∀ a : List ngx_regex_elt,
      (∀ e ∈ a, exec e.regex s = NGX_REGEX_NO_MATCHED) →
      ngx_regex_exec_array exec a s = NGX_DECLINED ∧
      (execArrayLoop exec s a).invoked = a.length) ∧
    (∀ pre post (e : ngx_regex_elt),
      (∀ x ∈ pre, exec x.regex s = NGX_REGEX_NO_MATCHED) →
      0 ≤ exec e.regex s →
      ngx_regex_exec_array exec (pre ++ e :: post) s = NGX_OK ∧
      (execArrayLoop exec s (pre ++ e :: post)).invoked = pre.length + 1) ∧
    (NGX_DECLINED ≠ NGX_OK ∧ NGX_DECLINED ≠ NGX_ERROR) := by
  refine ⟨?_, ?_, by decide, by decide⟩
  · intro a h
    have hh := execArrayLoop_nomatch_prefix exec s a [] h
    rw [List.append_nil] at hh
    refine ⟨?_, ?_⟩ <;> simp [ngx_regex_exec_array, hh, execArrayLoop]
  · intro pre post e hpre hn
    have hne : exec e.regex s ≠ NGX_REGEX_NO_MATCHED := by
      show exec e.regex s ≠ -1
      omega
    have hnlt : ¬ exec e.regex s < 0 := by omega
    have hh := execArrayLoop_nomatch_prefix exec s pre (e :: post) hpre
    have hloop : execArrayLoop exec s (e :: post) = ⟨NGX_OK, 1, []⟩ := by
      simp [execArrayLoop, hne, hnlt]
    rw [hloop] at hh
    refine ⟨by simp [ngx_regex_exec_array, hh], by simp [hh]; omega⟩

/-- Closed instance of exec_array_skip_match_declined: two patterns that
never match exhaust the sequence and yield NGX_DECLINED. -/
theorem exec_array_skip_match_declined_witness :
    (∀ e ∈ [ngx_regex_elt.mk ⟨1⟩ (str "a"), ngx_regex_elt.mk ⟨2⟩ (str "b")],
      (fun (_ : ngx_regex_t) (_ : Str) => NGX_REGEX_NO_MATCHED) e.regex
        (str "in") = NGX_REGEX_NO_MATCHED) ∧
    ngx_regex_exec_array (fun _ _ => NGX_REGEX_NO_MATCHED)
      [⟨⟨1⟩, str "a"⟩, ⟨⟨2⟩, str "b"⟩] (str "in") = NGX_DECLINED :=
  ⟨by decide,
    ((exec_array_skip_match_declined (fun _ _ => NGX_REGEX_NO_MATCHED)
      (str "in")).1 [⟨⟨1⟩, str "a"⟩, ⟨⟨2⟩, str "b"⟩] (by decide)).1⟩

/-- Engine reply where pcre2_compile rejects the pattern "(ab" with a
failure offset equal to the pattern length. -/
def engRejectAtEnd : EngineCompile :=
  { result := .error (114, 3), errstr := str "missing closing parenthesis",
    captureCount := ⟨0, 0⟩, nameCount := ⟨0, 0⟩, nameEntrySize := ⟨0, 0⟩,
    nameTable := ⟨0, 0⟩ }

/-- C1 as stated is false: when the failure offset equals the pattern
length the error buffer does not note "at end of pattern"; the formatted
message simply omits the suffix clause. -/
theorem compile_error_at_end_counterexample :
    (ngx_regex_compile engRejectAtEnd
      { pattern := str "(ab", options := 0, errCap := 200 }
      none true true).status = NGX_ERROR ∧
    ¬ (str "at end of pattern" <:+:
      ((ngx_regex_compile engRejectAtEnd
        { pattern := str "(ab", options := 0, errCap := 200 }
        none true true).errMsg.getD [])) := by decide

/-- C1 amended: on an engine compile rejection ngx_regex_compile returns
NGX_ERROR and writes a message that includes the engine error string; when
the failure offset equals the pattern length the message is the error
string with the quoted pattern and nothing more (no position note), and
when the offset is smaller the message additionally includes the unparsed
suffix of the pattern starting at that offset. -/
theorem compile_error_message (eng : EngineCompile)
    (rc : ngx_regex_compile_t) (studies : Option (List ngx_regex_elt))
    (allocOk pushOk : Bool) (errcode : Int) (erroff : Nat)
    (hres : eng.result = .error (errcode, erroff))
    (hcap : (compileFailMsg eng.errstr rc.pattern erroff).length ≤ rc.errCap) :
    (ngx_regex_compile eng rc studies allocOk pushOk).status = NGX_ERROR ∧
    (ngx_regex_compile eng rc studies allocOk pushOk).errMsg
      = some (compileFailMsg eng.errstr rc.pattern erroff) ∧
    eng.errstr <:+: compileFailMsg eng.errstr rc.pattern erroff ∧
    (erroff = rc.pattern.length →
      compileFailMsg eng.errstr rc.pattern erroff
        = str "pcre2_compile() failed: " ++ eng.errstr ++ str " in \""
            ++ rc.pattern ++ str "\"") ∧
    (erroff ≠ rc.pattern.length →
      rc.pattern.drop erroff <:+: compileFailMsg eng.errstr rc.pattern erroff)
    := by
  refine ⟨?_, ?_, ?_, ?_, ?_⟩
  · simp [ngx_regex_compile, hres]
  · simp [ngx_regex_compile, hres, List.take_of_length_le hcap]
  · by_cases hoff : erroff = rc.pattern.length
    · exact infix_of_split (u := str "pcre2_compile() failed: ")
        (v := str " in \"" ++ rc.pattern ++ str "\"")
        (by simp [compileFailMsg, hoff, List.append_assoc])
    · exact infix_of_split (u := str "pcre2_compile() failed: ")
        (v := str " in \"" ++ rc.pattern ++ str "\" at \""
          ++ rc.pattern.drop erroff ++ str "\"")
        (by simp [compileFailMsg, hoff, List.append_assoc])
  · intro hoff
    simp [compileFailMsg, hoff]
  · intro hoff
    exact infix_of_split
      (u := str "pcre2_compile() failed: " ++ eng.errstr ++ str " in \""
        ++ rc.pattern ++ str "\" at \"")
      (v := str "\"")
      (by simp [compileFailMsg, hoff, List.append_assoc])

/-- Closed instance of compile_error_message: the pattern "a(b" rejected at
offset 1 yields NGX_ERROR with the suffix "(b" included in the message. -/
theorem compile_error_message_witness :
    ({ result := .error (114, 1), errstr := str "bad",
       captureCount := ⟨0, 0⟩, nameCount := ⟨0, 0⟩, nameEntrySize := ⟨0, 0⟩,
       nameTable := ⟨0, 0⟩ } : EngineCompile).result = .error (114, 1) ∧
    (ngx_regex_compile
      { result := .error (114, 1), errstr := str "bad",
        captureCount := ⟨0, 0⟩, nameCount := ⟨0, 0⟩, nameEntrySize := ⟨0, 0⟩,
        nameTable := ⟨0, 0⟩ }
      { pattern := str "a(b", options := 0, errCap := 200 }
      none true true).status = NGX_ERROR :=
  ⟨rfl,
    (compile_error_message _
      { pattern := str "a(b", options := 0, errCap := 200 }
      none true true 114 1 rfl (by decide)).1⟩

/-- The failed-query message contains the query constant name, the numeric
code and the pattern text. -/
theorem infoFailedMsg_parts (k : InfoKind) (pattern : Str) (n : Int) :
    infoName k <:+: infoFailedMsg k pattern n ∧
    intStr n <:+: infoFailedMsg k pattern n ∧
    pattern <:+: infoFailedMsg k pattern n := by
  refine ⟨?_, ?_, ?_⟩
  · exact infix_of_split
      (u := str "pcre2_pattern_info(\"" ++ pattern ++ str "\", ")
      (v := str ") failed: " ++ intStr n)
      (by simp [infoFailedMsg, List.append_assoc])
  · exact infix_of_split
      (u := str "pcre2_pattern_info(\"" ++ pattern ++ str "\", "
        ++ infoName k ++ str ") failed: ")
      (v := [])
      (by simp [infoFailedMsg, List.append_assoc])
  · exact infix_of_split
      (u := str "pcre2_pattern_info(\"")
      (v := str "\", " ++ infoName k ++ str ") failed: " ++ intStr n)
      (by simp [infoFailedMsg, List.append_assoc])

/-- C4: after a successful engine compile and successful bookkeeping, the
capture count is queried first and a zero count returns NGX_OK at once;
otherwise the named-capture count is queried and a zero count returns
NGX_OK; otherwise the name-entry size and then the name table are queried
and both replies are stored in the request output fields before NGX_OK. -/
theorem compile_metadata_order (eng : EngineCompile)
    (rc : ngx_regex_compile_t) (studies : Option (List ngx_regex_elt))
    (re : Nat) (hres : eng.result = .ok re)
    (h1 : 0 ≤ eng.captureCount.n) (h2 : 0 ≤ eng.nameCount.n)
    (h3 : 0 ≤ eng.nameEntrySize.n) (h4 : 0 ≤ eng.nameTable.n) :
    (eng.captureCount.val = 0 →
      (ngx_regex_compile eng rc studies true true).status = NGX_OK ∧
      (ngx_regex_compile eng rc studies true true).queries
        = [.captureCount] ∧
      (ngx_regex_compile eng rc studies true true).captures
        = some eng.captureCount.val) ∧
    (eng.captureCount.val ≠ 0 → eng.nameCount.val = 0 →
      (ngx_regex_compile eng rc studies true true).status = NGX_OK ∧
      (ngx_regex_compile eng rc studies true true).queries
        = [.captureCount, .nameCount] ∧
      (ngx_regex_compile eng rc studies true true).named_captures
        = some eng.nameCount.val) ∧
    (eng.captureCount.val ≠ 0 → eng.nameCount.val ≠ 0 →
      (ngx_regex_compile eng rc studies true true).status = NGX_OK ∧
      (ngx_regex_compile eng rc studies true true).queries
        = [.captureCount, .nameCount, .nameEntrySize, .nameTable] ∧
      (ngx_regex_compile eng rc studies true true).name_size
        = some eng.nameEntrySize.val ∧
      (ngx_regex_compile eng rc studies true true).names
        = some eng.nameTable.val) := by
  have n1 : ¬ eng.captureCount.n < 0 := by omega
  have n2 : ¬ eng.nameCount.n < 0 := by omega
  have n3 : ¬ eng.nameEntrySize.n < 0 := by omega
  have n4 : ¬ eng.nameTable.n < 0 := by omega
  refine ⟨?_, ?_, ?_⟩
  · intro hz
    cases studies <;>
      simp [ngx_regex_compile, hres, compileMetadata, compileOk, n1, hz]
  · intro hz1 hz2
    cases studies <;>
      simp [ngx_regex_compile, hres, compileMetadata, compileOk,
        n1, n2, hz1, hz2]
  · intro hz1 hz2
    cases studies <;>
      simp [ngx_regex_compile, hres, compileMetadata, compileOk,
        n1, n2, n3, n4, hz1, hz2]

/-- Closed instance of compile_metadata_order: two captures, one named,
entry size 8, table handle 99: all four queries run and both table fields
are stored. -/
theorem compile_metadata_order_witness :
    (ngx_regex_compile
      { result := .ok 5, errstr := [], captureCount := ⟨0, 2⟩,
        nameCount := ⟨0, 1⟩, nameEntrySize := ⟨0, 8⟩, nameTable := ⟨0, 99⟩ }
      { pattern := str "(?<x>a)(b)", options := 0, errCap := 200 }
      none true true).status = NGX_OK ∧
    (ngx_regex_compile
      { result := .ok 5, errstr := [], captureCount := ⟨0, 2⟩,
        nameCount := ⟨0, 1⟩, nameEntrySize := ⟨0, 8⟩, nameTable := ⟨0, 99⟩ }
      { pattern := str "(?<x>a)(b)", options := 0, errCap := 200 }
      none true true).name_size = some 8 :=
  have h := (compile_metadata_order
    { result := .ok 5, errstr := [], captureCount := ⟨0, 2⟩,
      nameCount := ⟨0, 1⟩, nameEntrySize := ⟨0, 8⟩, nameTable := ⟨0, 99⟩ }
    { pattern := str "(?<x>a)(b)", options := 0, errCap := 200 }
    none 5 rfl (by decide) (by decide) (by decide) (by decide)).2.2
    (by decide) (by decide)
  ⟨h.1, h.2.2.1⟩

/-- C5: after a successful engine compile, a negative reply from any of the
four metadata queries makes ngx_regex_compile return NGX_ERROR with the
query-failure message (truncated to the buffer capacity) in the error
buffer; the message names the failing PCRE2_INFO_* query and contains the
numeric code and the pattern text. -/
theorem compile_metadata_failure (eng : EngineCompile)
    (rc : ngx_regex_compile_t) (studies : Option (List ngx_regex_elt))
    (re : Nat) (hres : eng.result = .ok re) :
    (eng.captureCount.n < 0 →
      (ngx_regex_compile eng rc studies true true).status = NGX_ERROR ∧
      (ngx_regex_compile eng rc studies true true).errMsg
        = some ((infoFailedMsg .captureCount rc.pattern
            eng.captureCount.n).take rc.errCap) ∧
      infoName .captureCount
        <:+: infoFailedMsg .captureCount rc.pattern eng.captureCount.n ∧
      intStr eng.captureCount.n
        <:+: infoFailedMsg .captureCount rc.pattern eng.captureCount.n ∧
      rc.pattern
        <:+: infoFailedMsg .captureCount rc.pattern eng.captureCount.n) ∧
    (0 ≤ eng.captureCount.n → eng.captureCount.val ≠ 0 →
      eng.nameCount.n < 0 →
      (ngx_regex_compile eng rc studies true true).status = NGX_ERROR ∧
      (ngx_regex_compile eng rc studies true true).errMsg
        = some ((infoFailedMsg .nameCount rc.pattern
            eng.nameCount.n).take rc.errCap) ∧
      infoName .nameCount
        <:+: infoFailedMsg .nameCount rc.pattern eng.nameCount.n ∧
      intStr eng.nameCount.n
        <:+: infoFailedMsg .nameCount rc.pattern eng.nameCount.n ∧
      rc.pattern <:+: infoFailedMsg .nameCount rc.pattern eng.nameCount.n) ∧
    (0 ≤ eng.captureCount.n → eng.captureCount.val ≠ 0 →
      0 ≤ eng.nameCount.n → eng.nameCount.val ≠ 0 →
      eng.nameEntrySize.n < 0 →
      (ngx_regex_compile eng rc studies true true).status = NGX_ERROR ∧
      (ngx_regex_compile eng rc studies true true).errMsg
        = some ((infoFailedMsg .nameEntrySize rc.pattern
            eng.nameEntrySize.n).take rc.errCap) ∧
      infoName .nameEntrySize
        <:+: infoFailedMsg .nameEntrySize rc.pattern eng.nameEntrySize.n ∧
      intStr eng.nameEntrySize.n
        <:+: infoFailedMsg .nameEntrySize rc.pattern eng.nameEntrySize.n ∧
      rc.pattern
        <:+: infoFailedMsg .nameEntrySize rc.pattern eng.nameEntrySize.n) ∧
    (0 ≤ eng.captureCount.n → eng.captureCount.val ≠ 0 →
      0 ≤ eng.nameCount.n → eng.nameCount.val ≠ 0 →
      0 ≤ eng.nameEntrySize.n → eng.nameTable.n < 0 →
      (ngx_regex_compile eng rc studies true true).status = NGX_ERROR ∧
      (ngx_regex_compile eng rc studies true true).errMsg
        = some ((infoFailedMsg .nameTable rc.pattern
            eng.nameTable.n).take rc.errCap) ∧
      infoName .nameTable
        <:+: infoFailedMsg .nameTable rc.pattern eng.nameTable.n ∧
      intStr eng.nameTable.n
        <:+: infoFailedMsg .nameTable rc.pattern eng.nameTable.n ∧
      rc.pattern <:+: infoFailedMsg .nameTable rc.pattern eng.nameTable.n)
    := by
  refine ⟨?_, ?_, ?_, ?_⟩
  · intro hq
    refine ⟨?_, ?_, infoFailedMsg_parts _ _ _⟩ <;>
      cases studies <;>
        simp [ngx_regex_compile, hres, compileMetadata, infoFailed, hq]
  · intro hn1 hv1 hq
    have n1 : ¬ eng.captureCount.n < 0 := by omega
    refine ⟨?_, ?_, infoFailedMsg_parts _ _ _⟩ <;>
      cases studies <;>
        simp [ngx_regex_compile, hres, compileMetadata, infoFailed,
          n1, hv1, hq]
  · intro hn1 hv1 hn2 hv2 hq
    have n1 : ¬ eng.captureCount.n < 0 := by omega
    have n2 : ¬ eng.nameCount.n < 0 := by omega
    refine ⟨?_, ?_, infoFailedMsg_parts _ _ _⟩ <;>
      cases studies <;>
        simp [ngx_regex_compile, hres, compileMetadata, infoFailed,
          n1, n2, hv1, hv2, hq]
  · intro hn1 hv1 hn2 hv2 hn3 hq
    have n1 : ¬ eng.captureCount.n < 0 := by omega
    have n2 : ¬ eng.nameCount.n < 0 := by omega
    have n3 : ¬ eng.nameEntrySize.n < 0 := by omega
    refine ⟨?_, ?_, infoFailedMsg_parts _ _ _⟩ <;>
      cases studies <;>
        simp [ngx_regex_compile, hres, compileMetadata, infoFailed,
          n1, n2, n3, hv1, hv2, hq]

/-- Closed instance of compile_metadata_failure: the NAMECOUNT query
replies -21 and compilation fails overall. -/
theorem compile_metadata_failure_witness :
    ({ result := .ok 5, errstr := [], captureCount := ⟨0, 1⟩,
       nameCount := ⟨-21, 0⟩, nameEntrySize := ⟨0, 0⟩,
       nameTable := ⟨0, 0⟩ } : EngineCompile).nameCount.n < 0 ∧
    (ngx_regex_compile
      { result := .ok 5, errstr := [], captureCount := ⟨0, 1⟩,
        nameCount := ⟨-21, 0⟩, nameEntrySize := ⟨0, 0⟩, nameTable := ⟨0, 0⟩ }
      { pattern := str "(a)", options := 0, errCap := 200 }
      none true true).status = NGX_ERROR :=
  ⟨by decide,
    ((compile_metadata_failure
      { result := .ok 5, errstr := [], captureCount := ⟨0, 1⟩,
        nameCount := ⟨-21, 0⟩, nameEntrySize := ⟨0, 0⟩, nameTable := ⟨0, 0⟩ }
      { pattern := str "(a)", options := 0, errCap := 200 }
      none 5 rfl).2.1 (by decide) (by decide) (by decide)).1⟩

/-- C6: with the directive on, a build without JIT support or an engine
reporting no JIT capability forces the flag to 0 and logs a warning while
the handler still returns NGX_CONF_OK; with the directive off the handler
returns NGX_CONF_OK at once with no check and no warning; and the handler
returns NGX_CONF_OK in every case. -/
theorem pcre_jit_post_behavior (haveJit : Bool) (configRes : Int × Int)
    (fp : Int) :
    (ngx_regex_pcre_jit haveJit configRes fp).ok = true ∧
    (fp ≠ 0 → (haveJit = false ∨ configRes.1 ≠ 0 ∨ configRes.2 ≠ 1) →
      (ngx_regex_pcre_jit haveJit configRes fp).fp = 0 ∧
      (ngx_regex_pcre_jit haveJit configRes fp).warnings ≠ []) ∧
    (fp = 0 →
      (ngx_regex_pcre_jit haveJit configRes fp).fp = fp ∧
      (ngx_regex_pcre_jit haveJit configRes fp).warnings = []) := by
  refine ⟨?_, ?_, ?_⟩
  · unfold ngx_regex_pcre_jit
    repeat' split
    all_goals rfl
  · intro hfp hcase
    unfold ngx_regex_pcre_jit
    rw [if_neg hfp]
    cases haveJit with
    | false => simp
    | true =>
        have hc : configRes.1 ≠ 0 ∨ configRes.2 ≠ 1 := by
          rcases hcase with h | h
          · exact absurd h (by simp)
          · exact h
        simp [hc]
  · intro h0
    unfold ngx_regex_pcre_jit
    rw [if_pos h0]
    exact ⟨rfl, rfl⟩

/-- Closed instance of pcre_jit_post_behavior: flag on, engine reports no
JIT capability: the flag is forced off. -/
theorem pcre_jit_post_behavior_witness :
    (1 : Int) ≠ 0 ∧ (ngx_regex_pcre_jit true (0, 0) 1).fp = 0 :=
  ⟨by decide,
    ((pcre_jit_post_behavior true (0, 0) 1).2.1 (by decide)
      (by decide)).1⟩

/-- With JIT enabled the registry walk attempts JIT compilation on every
entry in order; the log lines are exactly one info line per rejected
entry, in order. -/
theorem jitPass_all (jitCompile : Nat → Int) (jit : Int) (hjit : jit ≠ 0)
    (studies : List ngx_regex_elt) :
    (jitPass true jit jitCompile studies).1
      = studies.map (fun e => e.regex.code) ∧
    (jitPass true jit jitCompile studies).2
      = (studies.filter
          (fun e => decide (jitCompile e.regex.code ≠ 0))).map
          (fun e => jitFailMsg e.name) := by
  induction studies with
  | nil => simp [jitPass]
  | cons e rest ih =>
      by_cases hn : jitCompile e.regex.code ≠ 0 <;>
        simp [jitPass, hjit, hn, ih.1, ih.2]

/-- C7: with JIT support built in, the flag on and cleanup registration
succeeding, ngx_regex_module_init attempts JIT compilation on every
registry entry in traversal order, logs exactly one info line per entry
the JIT compiler rejects (that line containing the pattern text), does not
stop at a rejection, and returns NGX_OK. -/
theorem module_init_jit_isolation (rcfJit : Int) (jitCompile : Nat → Int)
    (studies : List ngx_regex_elt) (hjit : rcfJit ≠ 0) :
    (ngx_regex_module_init true rcfJit true jitCompile studies).status
      = NGX_OK ∧
    (ngx_regex_module_init true rcfJit true jitCompile studies).jitAttempts
      = studies.map (fun e => e.regex.code) ∧
    (ngx_regex_module_init true rcfJit true jitCompile studies).logs
      = (studies.filter
          (fun e => decide (jitCompile e.regex.code ≠ 0))).map
          (fun e => jitFailMsg e.name) ∧
    (∀ e : ngx_regex_elt, e.name <:+: jitFailMsg e.name) := by
  have hp := jitPass_all jitCompile rcfJit hjit studies
  refine ⟨?_, ?_, ?_, ?_⟩
  · simp [ngx_regex_module_init]
  · simp [ngx_regex_module_init, hp.1]
  · simp [ngx_regex_module_init, hp.2]
  · intro e
    exact infix_of_split
      (u := str "JIT compiler does not support pattern: \"")
      (v := str "\"")
      (by simp [jitFailMsg, List.append_assoc])

/-- Closed instance of module_init_jit_isolation: the JIT compiler rejects
handle 1 and accepts handle 2; both are attempted and init returns
NGX_OK. -/
theorem module_init_jit_isolation_witness :
    (1 : Int) ≠ 0 ∧
    (ngx_regex_module_init true 1 true (fun h => if h = 1 then 1 else 0)
      [⟨⟨1⟩, str "a"⟩, ⟨⟨2⟩, str "b"⟩]).status = NGX_OK ∧
    (ngx_regex_module_init true 1 true (fun h => if h = 1 then 1 else 0)
      [⟨⟨1⟩, str "a"⟩, ⟨⟨2⟩, str "b"⟩]).jitAttempts = [1, 2] :=
  have h := module_init_jit_isolation 1 (fun h => if h = 1 then 1 else 0)
    [⟨⟨1⟩, str "a"⟩, ⟨⟨2⟩, str "b"⟩] (by decide)
  ⟨by decide, h.1, by rw [h.2.1]; rfl⟩

/-- Whatever branch the metadata extraction takes, the registry-append
marker and the registry it received pass through unchanged. -/
theorem compileMetadata_appended_studies (eng : EngineCompile)
    (rc : ngx_regex_compile_t) (re : Nat) (app : Bool)
    (st : Option (List ngx_regex_elt)) :
    (compileMetadata eng rc re app st).registryAppended = app ∧
    (compileMetadata eng rc re app st).studies = st := by
  refine ⟨?_, ?_⟩ <;>
    (simp only [compileMetadata]
     repeat' split
     all_goals rfl)

/-- C8: after ngx_regex_module_init completes its traversal the global
registry pointer is null whatever the JIT flag was, and a compile call
that finds no active registry appends no entry. -/
theorem registry_single_use :
    (∀ (haveJit : Bool) (rcfJit : Int) (jitCompile : Nat → Int)
        (studies : List ngx_regex_elt),
      (ngx_regex_module_init haveJit rcfJit true jitCompile
        studies).studiesAfter = none) ∧
    (∀ (eng : EngineCompile) (rc : ngx_regex_compile_t)
        (allocOk pushOk : Bool),
      (ngx_regex_compile eng rc none allocOk pushOk).registryAppended
        = false ∧
      (ngx_regex_compile eng rc none allocOk pushOk).studies = none) := by
  refine ⟨?_, ?_⟩
  · intro haveJit rcfJit jitCompile studies
    simp [ngx_regex_module_init]
  · intro eng rc allocOk pushOk
    rcases hres : eng.result with p | re
    · simp [ngx_regex_compile, hres]
    · cases allocOk with
      | false => simp [ngx_regex_compile, hres, nomemResult]
      | true =>
          have hm := compileMetadata_appended_studies eng rc re false none
          simp [ngx_regex_compile, hres, hm.1, hm.2]

/-- C9: one teardown trigger frees exactly the compiled handle of every
registry entry, in traversal order; after it the callback is consumed, so
a second trigger frees nothing, and with distinct handles every handle is
freed exactly once across both triggers. -/
theorem teardown_frees_once (c : CleanupState) (hran : c.ran = false)
    (hnodup : (c.data.map (fun e => e.regex.code)).Nodup) :
    (runTeardown c).1 = ngx_pcre_free_studies c.data ∧
    (runTeardown c).1 = c.data.map (fun e => e.regex.code) ∧
    (runTeardown (runTeardown c).2).1 = [] ∧
    (∀ h ∈ c.data.map (fun e => e.regex.code),
      ((runTeardown c).1 ++ (runTeardown (runTeardown c).2).1).count h
        = 1) := by
  have h1 : runTeardown c
      = (ngx_pcre_free_studies c.data, { c with ran := true }) := by
    simp [runTeardown, hran]
  have h2 : (runTeardown (runTeardown c).2).1 = [] := by
    rw [h1]
    simp [runTeardown]
  refine ⟨by rw [h1], by rw [h1]; rfl, h2, ?_⟩
  intro h hmem
  rw [h2, h1]
  simp only [List.append_nil]
  exact List.count_eq_one_of_mem hnodup hmem

/-- Closed instance of teardown_frees_once: two entries with handles 1 and
2; the first trigger frees [1, 2] and the second frees nothing. -/
theorem teardown_frees_once_witness :
    (⟨[⟨⟨1⟩, str "a"⟩, ⟨⟨2⟩, str "b"⟩], false⟩ : CleanupState).ran
      = false ∧
    (runTeardown ⟨[⟨⟨1⟩, str "a"⟩, ⟨⟨2⟩, str "b"⟩], false⟩).1 = [1, 2] ∧
    (runTeardown
      (runTeardown ⟨[⟨⟨1⟩, str "a"⟩, ⟨⟨2⟩, str "b"⟩], false⟩).2).1 = [] :=
  have h := teardown_frees_once
    ⟨[⟨⟨1⟩, str "a"⟩, ⟨⟨2⟩, str "b"⟩], false⟩ rfl (by decide)
  ⟨rfl, by rw [h.2.1]; rfl, h.2.2.1⟩

/-- C10: with an active registry and successful allocation and append, the
registry entry is appended before any metadata query runs; on a metadata
failure the call returns NGX_ERROR yet the registry still holds the new
entry, whose handle the teardown walk then frees. -/
theorem compile_registry_not_atomic (eng : EngineCompile)
    (rc : ngx_regex_compile_t) (l : List ngx_regex_elt) (re : Nat)
    (hres : eng.result = .ok re)
    (_hfail : (ngx_regex_compile eng rc (some l) true true).status
      = NGX_ERROR) :
    (ngx_regex_compile eng rc (some l) true true).registryAppended
      = true ∧
    (ngx_regex_compile eng rc (some l) true true).studies
      = some (l ++ [⟨⟨re⟩, rc.pattern⟩]) ∧
    re ∈ ngx_pcre_free_studies (l ++ [⟨⟨re⟩, rc.pattern⟩]) := by
  have hm := compileMetadata_appended_studies eng rc re true
    (some (l ++ [⟨⟨re⟩, rc.pattern⟩]))
  refine ⟨?_, ?_, ?_⟩
  · simp [ngx_regex_compile, hres, hm.1]
  · simp [ngx_regex_compile, hres, hm.2]
  · simp [ngx_pcre_free_studies]

/-- Closed instance of compile_registry_not_atomic: the CAPTURECOUNT query
fails, compilation reports NGX_ERROR, yet the registry gained the entry
for handle 7. -/
theorem compile_registry_not_atomic_witness :
    (ngx_regex_compile
      { result := .ok 7, errstr := [], captureCount := ⟨-21, 0⟩,
        nameCount := ⟨0, 0⟩, nameEntrySize := ⟨0, 0⟩, nameTable := ⟨0, 0⟩ }
      { pattern := str "(a)", options := 0, errCap := 200 }
      (some []) true true).status = NGX_ERROR ∧
    (ngx_regex_compile
      { result := .ok 7, errstr := [], captureCount := ⟨-21, 0⟩,
        nameCount := ⟨0, 0⟩, nameEntrySize := ⟨0, 0⟩, nameTable := ⟨0, 0⟩ }
      { pattern := str "(a)", options := 0, errCap := 200 }
      (some []) true true).studies
      = some ([] ++ [⟨⟨7⟩, str "(a)"⟩]) :=
  ⟨by decide,
    (compile_registry_not_atomic
      { result := .ok 7, errstr := [], captureCount := ⟨-21, 0⟩,
        nameCount := ⟨0, 0⟩, nameEntrySize := ⟨0, 0⟩, nameTable := ⟨0, 0⟩ }
      { pattern := str "(a)", options := 0, errCap := 200 }
      [] 7 rfl (by decide)).2.1⟩

end NgxRegex
